import Mathlib

set_option autoImplicit false

/-!
# Shallow embedding of the Difox product-scraping core

This file embeds the crawl/scrape engine of `src/modules/difox.py` in Lean:
session handling (`handle_login`), product-page extraction (`scrape_product`),
catalog pagination (`product_urls_by_catalogue`), the concurrent map step
(`update_products`, modelled through an order-preserving gather over an
arbitrary completion order), and the reconciliation logic
(`update_product`, `check_unlisted_products`).

The browser-automation layer (`modules/warp.py`, the `SeleniumWrap` driver) and
the price parser (`modules/utility.py`) are not part of the embedded core: the
driver's observable behaviour is an explicit environment (`DriverSt`,
`ScrapeEnv`, `CatalogEnv`) and the price parser is an abstract environment
function `price_float : String → Rat`, so every theorem quantifies over all
behaviours of those collaborators.
-/

namespace Difox

/-- A structured product record as assembled by `scrape_product`
(`difox.py` lines 98-104): EAN, name, price, the `{0, 5}` quantity
sentinel, and originating URL. -/
structure Product where
  EAN : String
  product_name : String
  price : Rat
  quantity : Nat
  url : String
  deriving DecidableEq, Repr, Inhabited

/-- The DOM facts of one fetched product page that `scrape_product` inspects:
the flash-message text (if the wrapper element is present), the raw text of
the title / EAN-code / price elements (if present), and whether the
`.is--available` stock marker is present. -/
structure Page where
  flashMsg : Option String
  title : Option String
  eanText : Option String
  priceText : Option String
  available : Bool
  deriving DecidableEq, Repr

/-- The driver-visible login state that `handle_login` reads and writes:
whether the logged-in badge (`.loginBox__badge`) is currently present, the
value of the `#login-username` field when the login form can be found
(`none` models the form element being absent), and whether the badge is
present after the form is submitted. -/
structure DriverSt where
  badge : Bool
  formUser : Option String
  afterSubmitBadge : Bool
  deriving DecidableEq, Repr

/-- The driver interactions `handle_login` can perform after the
already-logged-in check: opening the login box, typing each credential, and
submitting the form. -/
inductive LoginAction where
  | clickLoginIcon
  | typeUsername
  | typePassword
  | clickLoginButton
  deriving DecidableEq, Repr

/-- Result of `handle_login`: either a normal return carrying the boolean
result, the driver state left behind and the actions performed, or an
`AssertionError` (`assert user, 'Login form not found'`) escaping the
function. -/
inductive LoginRes where
  | ok (success : Bool) (st : DriverSt) (acts : List LoginAction)
  | assertFailed (msg : String)
  deriving DecidableEq, Repr

/-- `Difox.handle_login` (`difox.py` lines 37-61). If the logged-in badge is
already present it returns `True` at once; otherwise it opens the login box,
asserts the username field exists, types the credentials only when the field
does not already hold the expected username, submits, and reports whether the
badge is present afterwards. -/
def handle_login (st : DriverSt) (username _password : String) : LoginRes :=
  if st.badge then
    .ok true st []
  else
    match st.formUser with
    | none => .assertFailed "Login form not found"
    | some v =>
      let typing :=
        if v ≠ username then [LoginAction.typeUsername, LoginAction.typePassword] else []
      let st' : DriverSt := { st with badge := st.afterSubmitBadge }
      .ok st.afterSubmitBadge st'
        (LoginAction.clickLoginIcon :: (typing ++ [LoginAction.clickLoginButton]))

/-- Python's `str.strip()` on the character list: drop whitespace from both
ends. -/
def stripChars (cs : List Char) : List Char :=
  ((cs.dropWhile Char.isWhitespace).reverse.dropWhile Char.isWhitespace).reverse

/-- Python's `str.strip()`. -/
def pyStrip (s : String) : String := ⟨stripChars s.data⟩

/-- Python's `str.replace(old, new)` on character lists, replacing every
non-overlapping occurrence left to right; `fuel` bounds the recursion and is
instantiated with the input length. -/
def replaceChars (old new : List Char) : Nat → List Char → List Char
  | 0, cs => cs
  | _ + 1, [] => []
  | fuel + 1, c :: cs =>
    if old.isPrefixOf (c :: cs) then
      new ++ replaceChars old new fuel ((c :: cs).drop old.length)
    else
      c :: replaceChars old new fuel cs

/-- Python's `str.replace(old, new)` (for the non-empty `old` used here). -/
def pyReplace (s old new : String) : String :=
  ⟨replaceChars old.data new.data s.data.length s.data⟩

/-- The exact flash-message text that `scrape_product` treats as session
expiry (`difox.py` line 74). -/
def sessionExpiredMsg : String := "Your session ran out. Please login again."

/-- The session-timeout check of `scrape_product` (`difox.py` lines 73-74):
the flash-message wrapper is present and its stripped text equals
`sessionExpiredMsg`. -/
def bannerDetected (p : Page) : Bool :=
  match p.flashMsg with
  | some s => pyStrip s == sessionExpiredMsg
  | none => false

/-- The scraping environment: what the first cookie-bearing fetch of each URL
returns (`get_page_by_requests`), what a second fetch of the same URL after a
re-login would return (`refetch`, consulted only by the specification variant
`scrape_product_spec` — the code never fetches twice), the price parser
`utility.price_float` (an external module, kept abstract), and the configured
credentials. -/
structure ScrapeEnv where
  fetch : String → Option Page
  refetch : String → Option Page
  price_float : String → Rat
  username : String
  password : String

/-- Result of one `scrape_product` call: a product record (`err = ''`), a
caught `AssertionError` recorded as a bad-product outcome (`product = {}`,
`err` the assertion message), or `fatal` for the `exit()` call that terminates
the whole run when re-login fails (`difox.py` lines 75-77). -/
inductive ScrapeResult where
  | ok (p : Product)
  | badProduct (err : String)
  | fatal
  deriving DecidableEq, Repr

/-- The field-extraction tail of `scrape_product` (`difox.py` lines 79-104):
title, EAN element and price element are each asserted present; the EAN text
has the `EAN code:` label stripped; the availability marker is not asserted —
its absence merely selects quantity `0` instead of `5`. -/
def extractFields (env : ScrapeEnv) (url : String) (page : Page) : ScrapeResult :=
  match page.title with
  | none => .badProduct "Product name not found"
  | some t =>
    match page.eanText with
    | none => .badProduct "Product EAN not found"
    | some e =>
      match page.priceText with
      | none => .badProduct "Product price not found"
      | some pr =>
        .ok { EAN := pyStrip (pyReplace e "EAN code:" "")
              product_name := pyStrip t
              price := env.price_float (pyStrip pr)
              quantity := if page.available then 5 else 0
              url := url }

/-- `Difox.scrape_product` (`difox.py` lines 63-108). Fetch the page by
requests; a missing page is an assertion failure. If the session-expired
banner is detected, call `handle_login`: a `False` return executes `exit()`
(modelled `fatal`); an `AssertionError` raised inside `handle_login` is caught
by the surrounding `except AssertionError` and becomes a bad-product outcome;
on `True` the code falls through and extracts from the page it already fetched
— it does not fetch the URL again. -/
def scrape_product (env : ScrapeEnv) (st : DriverSt) (url : String) :
    ScrapeResult × DriverSt :=
  match env.fetch url with
  | none => (.badProduct "Product page not found", st)
  | some page =>
    if bannerDetected page then
      match handle_login st env.username env.password with
      | .assertFailed msg => (.badProduct msg, st)
      | .ok false st' _ => (.fatal, st')
      | .ok true st' _ => (extractFields env url page, st')
    else
      (extractFields env url page, st)

/-- Modelled from the spec (4.4/7): the specification's session-expiry
behaviour, in which a successful re-login is followed by a retried
fetch-and-extract of the same URL whose outcome replaces the expired attempt.
The retried fetch is the environment's `refetch`. This definition exists only
to be compared with `scrape_product`, which implements no retry. -/
def scrape_product_spec (env : ScrapeEnv) (st : DriverSt) (url : String) :
    ScrapeResult × DriverSt :=
  match env.fetch url with
  | none => (.badProduct "Product page not found", st)
  | some page =>
    if bannerDetected page then
      match handle_login st env.username env.password with
      | .assertFailed msg => (.badProduct msg, st)
      | .ok false st' _ => (.fatal, st')
      | .ok true st' _ =>
        match env.refetch url with
        | none => (.badProduct "Product page not found", st')
        | some page' => (extractFields env url page', st')
    else
      (extractFields env url page, st)

/-! ## Update-mode reconciliation -/

/-- One inventory row as consumed by the core: the EAN key and the fetch
target URL (other columns pass through unused). -/
structure InvRow where
  EAN : String
  url : String
  deriving DecidableEq, Repr, Inhabited

/-- The outcome of one completed (non-terminating, non-crashing)
`scrape_product` call as consumed by the reconciliation plumbing, matching the
`(product, err)` tuple convention: `inl` a product (`err = ''`), `inr` the
error string (`err` non-empty). The plumbing is parameterised over an
arbitrary such oracle so its theorems hold for every behaviour of the scrape
step. -/
abbrev ScrapeOut := Product ⊕ String

/-- Whether a scrape outcome is the error case (`if err:` in the Python). -/
def ScrapeOut.isErr : ScrapeOut → Bool
  | .inl _ => false
  | .inr _ => true

/-- One row of the update-mode outputs: either `{EAN, price, quantity}` for
the updated inventory or `{EAN, error, url}` for the bad-products table. -/
inductive UpdateOut where
  | success (EAN : String) (price : Rat) (quantity : Nat)
  | failure (EAN : String) (error : String) (url : String)
  deriving DecidableEq, Repr

/-- The EAN key a produced update row carries. -/
def UpdateOut.keyEAN : UpdateOut → String
  | .success e _ _ => e
  | .failure e _ _ => e

/-- Whether an update row is a bad-product row. -/
def UpdateOut.isFailure : UpdateOut → Bool
  | .success _ _ _ => false
  | .failure _ _ _ => true

/-- `Difox.update_product` (`difox.py` lines 110-123): scrape the row's URL;
on error return `{EAN, error, url}`, otherwise `{EAN, price, quantity}` — in
both branches the EAN written is `product['EAN']`, the input row's key, not
the EAN scraped off the page. -/
def update_product (scr : String → ScrapeOut) (row : InvRow) : UpdateOut :=
  match scr row.url with
  | .inr err => .failure row.EAN err row.url
  | .inl p => .success row.EAN p.price p.quantity

/-- `Difox.update_products` (`difox.py` lines 125-149), the pure core: in test
mode truncate to the first 10 rows, map `update_product` over the rows
(`executor.map` keeps outcomes in input order), then split outcomes into the
updated-inventory and bad-products lists in loop order. -/
def update_products (scr : String → ScrapeOut) (test_env : Bool)
    (products : List InvRow) : List UpdateOut × List UpdateOut :=
  let effective := if test_env then products.take 10 else products
  let outcomes := effective.map (update_product scr)
  (outcomes.filter (fun o => !o.isFailure), outcomes.filter (fun o => o.isFailure))

/-! ## The bounded worker pool

`update_products` and `check_unlisted_products` dispatch their work through
`ThreadPoolExecutor.map`, which hands results back in input order regardless
of the order in which workers finish. `runPool`/`gather` model that primitive:
tasks complete in an arbitrary completion order, each completion deposits its
result keyed by the task's input index, and the gather step reads the results
back in input-index order. -/

/-- Completions, in completion order: the `i`-th task finishing deposits the
pair `(i, f tasks[i])`. -/
def runPool {α β : Type} [Inhabited α] (f : α → β) (tasks : List α)
    (order : List Nat) : List (Nat × β) :=
  order.map (fun i => (i, f (tasks.getD i default)))

/-- Read the deposited results back in input-index order. -/
def gather {β : Type} (n : Nat) (results : List (Nat × β)) : List (Option β) :=
  (List.range n).map (fun i => (results.find? (fun r => r.1 == i)).map (fun r => r.2))

/-- The executor-map step: dispatch every task, let them complete in `order`,
gather one result per input in input order. -/
def scrapeAll {α β : Type} [Inhabited α] (f : α → β) (tasks : List α)
    (order : List Nat) : List (Option β) :=
  gather tasks.length (runPool f tasks order)

/-! ## Catalog pagination -/

/-- The driver-visible behaviour of one catalog's traversal
(`product_urls_by_catalogue`): whether `get_page` returns a soup, whether the
total-result indicator is found, whether the page-size-100 URL assertion
holds, the number of `li` items in the pagination control at its `k`-th query
(`none` models `ul.pagination` not found; query `0` is the one before the
loop, query `k+1` the one inside iteration `k`), and the product-card `href`s
visible during iteration `k`. Anchors inside product cards are assumed
present, so `href` reads cannot fail. -/
structure CatalogEnv where
  soupOk : Bool
  resultTxt : Bool
  pageSizeOk : Bool
  pagination : Nat → Option Nat
  hrefs : Nat → List String

/-- How one catalog's page loop ends: normally, by a caught assertion failure
(`except AssertionError` prints the message and returns the URLs collected so
far), or by an uncaught `IndexError` from `lis[-1].click()` on an empty
pagination list, which escapes the function and kills the run. -/
inductive LoopEnd where
  | done
  | aborted (msg : String)
  | crashed
  deriving DecidableEq, Repr

/-- The page loop of `product_urls_by_catalogue` (`difox.py` lines 176-188):
each iteration appends the current page's product-card URLs, then re-queries
the pagination control (assertion failure aborts with the collected URLs) and
clicks its last item to advance. -/
def pagesLoop (env : CatalogEnv) : Nat → Nat → List String → List String × LoopEnd
  | 0, _, acc => (acc, .done)
  | fuel + 1, k, acc =>
    let acc' := acc ++ env.hrefs k
    match env.pagination (k + 1) with
    | none => (acc', .aborted "Pagination not found")
    | some 0 => (acc', .crashed)
    | some (_ + 1) => pagesLoop env fuel (k + 1) acc'

/-- A traversal either returns a URL list together with the assertion message
it logged if it aborted (`none` when it completed), or crashes on the uncaught
`IndexError`. -/
inductive CatResult where
  | ok (urls : List String) (logged : Option String)
  | crash
  deriving DecidableEq, Repr

/-- `Difox.product_urls_by_catalogue` (`difox.py` lines 151-192): assert the
catalog page, the total-result text and the page-size switch; read the
initial pagination control to fix the page count as `len(lis) - 2`; run the
page loop. Every `AssertionError` is caught, logged, and the URLs collected
so far are returned. -/
def product_urls_by_catalogue (env : CatalogEnv) (catalog_url : String) : CatResult :=
  if !env.soupOk then .ok [] (some "Catalog page not found")
  else if !env.resultTxt then
    .ok [] (some ("Total result text not found in catalog " ++ catalog_url))
  else if !env.pageSizeOk then .ok [] (some "Failed to set per page 100 item")
  else
    match env.pagination 0 with
    | none => .ok [] (some "Pagination not found")
    | some n =>
      match pagesLoop env (n - 2) 0 [] with
      | (urls, .done) => .ok urls none
      | (urls, .aborted msg) => .ok urls (some msg)
      | (_, .crashed) => .crash

/-- The URL-collection operation as invoked by `check_unlisted_products`
(`difox.py` lines 210-211): the traversal's result passed through
`list(set(...))`, i.e. deduplicated. `none` when the traversal crashed the
run. -/
def collectProductUrls (env : CatalogEnv) (catalog_url : String) :
    Option (List String × Option String) :=
  match product_urls_by_catalogue env catalog_url with
  | .ok urls logged => some (urls.dedup, logged)
  | .crash => none

/-! ## Append-mode reconciliation -/

/-- One catalog row: listing URL, display name, and the optional output
filename (`catalog.get('filename', 'Unnamed')`). -/
structure Catalog where
  url : String
  name : String
  filename : Option String
  deriving DecidableEq, Repr

/-- One row of a catalog's unlisted-products output:
`{EAN, product_name, quantity}`. -/
structure UnlistedRow where
  EAN : String
  product_name : String
  quantity : Nat
  deriving DecidableEq, Repr

/-- The URL pre-filter of `check_unlisted_products` (`difox.py` lines
212-217): keep the URLs not already present among the inventory's URLs, and
in test mode only the first 10 of them. -/
def filteredUrls (URLs : List String) (test_env : Bool) (urls : List String) :
    List String :=
  let filtered := urls.filter (fun u => u ∉ URLs)
  if test_env then filtered.take 10 else filtered

/-- The scrape loop of `check_unlisted_products` (`difox.py` lines 221-231)
over one catalog's filtered URLs, in input order: an error increments the
run's error counter and the URL contributes nothing; a scraped product is
appended as an unlisted row only when its EAN is absent from the inventory
EAN list. -/
def collectUnlisted (EANs : List String) (scr : String → ScrapeOut) :
    List String → List UnlistedRow × Nat
  | [] => ([], 0)
  | u :: rest =>
    match scr u with
    | .inr _ =>
      let (rows, errs) := collectUnlisted EANs scr rest
      (rows, errs + 1)
    | .inl p =>
      let (rows, errs) := collectUnlisted EANs scr rest
      if p.EAN ∉ EANs then
        (⟨p.EAN, p.product_name, p.quantity⟩ :: rows, errs)
      else
        (rows, errs)

/-- One iteration of the catalog loop of `check_unlisted_products`
(`difox.py` lines 207-241): collect and deduplicate the catalog's product
URLs, apply the URL pre-filter, scrape the survivors, and emit the catalog's
output under its configured filename (default `Unnamed`) together with the
number of scrape errors it contributed. `none` when the traversal crashed. -/
def processCatalog (EANs URLs : List String) (test_env : Bool)
    (scr : String → ScrapeOut) (world : String → CatalogEnv) (c : Catalog) :
    Option (String × List UnlistedRow × Nat) :=
  match collectProductUrls (world c.url) c.url with
  | none => none
  | some (product_urls, _) =>
    let fs := filteredUrls URLs test_env product_urls
    let (unlisted, errs) := collectUnlisted EANs scr fs
    some (c.filename.getD "Unnamed", unlisted, errs)

/-- The result of a completed append-mode run: one output table per processed
catalog, in catalog order, and the total error count printed at the end. -/
structure AppendResult where
  outputs : List (String × List UnlistedRow)
  errCount : Nat
  deriving DecidableEq, Repr

/-- The sequential catalog loop: catalogs are processed one after another;
a crash anywhere aborts the run (`none`), while per-catalog assertion
failures are already absorbed by `product_urls_by_catalogue`. -/
def runCatalogs (EANs URLs : List String) (test_env : Bool)
    (scr : String → ScrapeOut) (world : String → CatalogEnv) :
    List Catalog → Option AppendResult
  | [] => some ⟨[], 0⟩
  | c :: rest =>
    match processCatalog EANs URLs test_env scr world c with
    | none => none
    | some (fname, rows, errs) =>
      match runCatalogs EANs URLs test_env scr world rest with
      | none => none
      | some res => some ⟨(fname, rows) :: res.outputs, errs + res.errCount⟩

/-- `Difox.check_unlisted_products` (`difox.py` lines 194-243), the pure
core: build the inventory EAN and URL lists from the full inventory, truncate
to the first 3 catalogs in test mode, and run the catalog loop. -/
def check_unlisted_products (products : List InvRow) (catalogs : List Catalog)
    (test_env : Bool) (scr : String → ScrapeOut) (world : String → CatalogEnv) :
    Option AppendResult :=
  let EANs := products.map (fun p => p.EAN)
  let URLs := products.map (fun p => p.url)
  let effective := if test_env then catalogs.take 3 else catalogs
  runCatalogs EANs URLs test_env scr world effective

/-! ## Concrete fixtures

Small closed instances of the environments, used to instantiate the theorems
below at concrete inputs. -/

/-- A fully populated, in-stock product page. -/
def pageGood : Page :=
  ⟨none, some " Camera X ", some "EAN code: 4006381333931", some " 1.234,56 € ", true⟩

/-- A product page with every asserted field present but without the
`.is--available` marker. -/
def pageNoStock : Page :=
  ⟨none, some " Camera X ", some "EAN code: 4006381333931", some " 1.234,56 € ", false⟩

/-- The stub page served when the session has run out: the flash banner is
present and none of the product fields are. -/
def pageExpired : Page :=
  ⟨some " Your session ran out. Please login again. ", none, none, none, false⟩

/-- A page whose title element is missing. -/
def pageNoTitle : Page :=
  ⟨none, none, some "EAN code: 4006381333931", some " 1.234,56 € ", true⟩

/-- An already-authenticated driver state. -/
def stAuthed : DriverSt := ⟨true, none, true⟩

/-- An environment in which every first fetch returns the session-expired
stub while a refetch after re-login would return the full product page. -/
def envExpiry : ScrapeEnv :=
  { fetch := fun _ => some pageExpired
    refetch := fun _ => some pageGood
    price_float := fun _ => (1234 : Rat)
    username := "user", password := "pass" }

/-- An environment serving the page without the availability marker. -/
def envNoStock : ScrapeEnv :=
  { fetch := fun _ => some pageNoStock
    refetch := fun _ => none
    price_float := fun _ => (1234 : Rat)
    username := "user", password := "pass" }

/-- An environment serving the page without a title element. -/
def envNoTitle : ScrapeEnv :=
  { fetch := fun _ => some pageNoTitle
    refetch := fun _ => none
    price_float := fun _ => (1234 : Rat)
    username := "user", password := "pass" }

/-- A one-page catalog whose product cards repeat a URL. -/
def envDup : CatalogEnv :=
  ⟨true, true, true,
   fun k => if k = 0 then some 3 else some 1,
   fun _ => ["https://d/p1", "https://d/p2", "https://d/p1"]⟩

/-- A catalog page whose pagination control is missing from the start. -/
def envPagMissing : CatalogEnv := ⟨true, true, true, fun _ => none, fun _ => []⟩

/-! ## Theorems -/

/-- **C10.** `handle_login` is idempotent: with the logged-in badge present it
returns `True` immediately, leaving the driver state unchanged and performing
no interaction (no login-box click, no typing, no submit); and after any
successful login, a second `handle_login` call again returns `True` with no
interaction and the same state. -/
theorem handle_login_idempotent :
    (∀ (st : DriverSt) (u p : String), st.badge = true →
        handle_login st u p = .ok true st [])
    ∧ ∀ (st st' : DriverSt) (acts : List LoginAction) (u p : String),
        handle_login st u p = .ok true st' acts →
        handle_login st' u p = .ok true st' [] := by
  have base : ∀ (st : DriverSt) (u p : String), st.badge = true →
      handle_login st u p = .ok true st [] := by
    intro st u p h
    simp [handle_login, h]
  refine ⟨base, ?_⟩
  intro st st' acts u p h
  apply base
  by_cases hb : st.badge = true
  · rw [base st u p hb] at h
    injection h with h1 h2 h3
    subst h2
    exact hb
  · have hb' : st.badge = false := by revert hb; cases st.badge <;> simp
    unfold handle_login at h
    rw [hb'] at h
    simp only [Bool.false_eq_true, if_false] at h
    cases hfu : st.formUser with
    | none => rw [hfu] at h; exact absurd h (by simp)
    | some v =>
      rw [hfu] at h
      injection h with h1 h2 h3
      subst h2
      exact h1

/-- Witness for **C10** at concrete states: a state with the badge present,
and a state reached by a successful form login. -/
theorem handle_login_idempotent_witness :
    handle_login ⟨true, none, false⟩ "user" "pass" = .ok true ⟨true, none, false⟩ []
    ∧ handle_login ⟨true, some "user", true⟩ "user" "pass" =
        .ok true ⟨true, some "user", true⟩ [] :=
  ⟨handle_login_idempotent.1 ⟨true, none, false⟩ "user" "pass" rfl,
   handle_login_idempotent.2 ⟨false, some "user", true⟩ ⟨true, some "user", true⟩
     [LoginAction.clickLoginIcon, LoginAction.clickLoginButton] "user" "pass" (by decide)⟩

/-- **C8.** In update mode, the EAN key of the produced output row — success
or failure — is the EAN of the input inventory row, for every possible scrape
outcome; in particular a page reporting a different EAN cannot change the
output row's key. -/
theorem update_product_keeps_inventory_ean (scr : String → ScrapeOut) (row : InvRow) :
    (update_product scr row).keyEAN = row.EAN := by
  unfold update_product
  cases scr row.url <;> rfl

/-- The update-mode outcome split is a partition: the updated list and the
bad-products list together account for every outcome exactly once. -/
theorem filter_failure_partition_length (l : List UpdateOut) :
    (l.filter (fun o => !o.isFailure)).length + (l.filter (fun o => o.isFailure)).length
      = l.length := by
  induction l with
  | nil => rfl
  | cons a tl ih =>
    cases ha : a.isFailure <;> simp [List.filter_cons, ha] <;> omega

/-- **C9.** Update in test mode processes exactly the first `min N 10`
inventory rows: the two output lists together have `min N 10` rows, and the
whole output coincides with a non-test run over just the first 10 rows, so no
later row contributes anything. -/
theorem update_products_test_mode (scr : String → ScrapeOut) (products : List InvRow) :
    ((update_products scr true products).1.length
        + (update_products scr true products).2.length
      = min products.length 10)
    ∧ update_products scr true products = update_products scr false (products.take 10) := by
  constructor
  · show ((((products.take 10).map (update_product scr)).filter _).length
        + (((products.take 10).map (update_product scr)).filter _).length = _)
    rw [filter_failure_partition_length, List.length_map, List.length_take]
    omega
  · rfl

/-- Looking up a deposited pool result by input index finds that task's
result, for any completion order containing the index. -/
theorem find?_runPool {α β : Type} [Inhabited α] (f : α → β) (tasks : List α)
    (order : List Nat) (i : Nat) (hi : i ∈ order) :
    (runPool f tasks order).find? (fun r => r.1 == i)
      = some (i, f (tasks.getD i default)) := by
  induction order with
  | nil => cases hi
  | cons j tl ih =>
    show List.find? _ ((j, f (tasks.getD j default)) :: runPool f tasks tl) = _
    rw [List.find?_cons]
    by_cases hji : j = i
    · subst hji; simp
    · have hbeq : ((j, f (tasks.getD j default)).1 == i) = false := by
        simpa using hji
      rw [hbeq]
      apply ih
      rcases List.mem_cons.mp hi with h | h
      · exact absurd h.symm hji
      · exact h

/-- **C7.** The concurrent scrape step yields exactly one outcome per input
row, in input order: whatever order the pooled workers complete in, gathering
the results by input index reproduces the sequential map of `update_product`
over the input list. -/
theorem scrapeAll_order_preserving (scr : String → ScrapeOut) (products : List InvRow)
    (order : List Nat) (h : order.Perm (List.range products.length)) :
    scrapeAll (update_product scr) products order
      = products.map (fun p => some (update_product scr p)) := by
  unfold scrapeAll gather
  apply List.ext_getElem
  · simp
  · intro i h1 h2
    have hlen : i < products.length := by simpa using h2
    have hmem : i ∈ order := by
      rw [h.mem_iff, List.mem_range]
      exact hlen
    simp only [List.getElem_map, List.getElem_range]
    rw [find?_runPool _ _ _ _ hmem]
    simp [List.getD_eq_getElem?_getD, List.getElem?_eq_getElem hlen]

/-- Witness for **C7**: three rows completed in the order third, first,
second still gather to the input-ordered outcome list. -/
theorem scrapeAll_order_preserving_witness :
    scrapeAll (update_product (fun u => Sum.inr u))
        [⟨"e1", "u1"⟩, ⟨"e2", "u2"⟩, ⟨"e3", "u3"⟩] [2, 0, 1]
      = ([⟨"e1", "u1"⟩, ⟨"e2", "u2"⟩, ⟨"e3", "u3"⟩] : List InvRow).map
          (fun p => some (update_product (fun u => Sum.inr u) p)) :=
  scrapeAll_order_preserving (fun u => Sum.inr u)
    [⟨"e1", "u1"⟩, ⟨"e2", "u2"⟩, ⟨"e3", "u3"⟩] [2, 0, 1] (by decide)

/-- Unfolding the unlisted-scrape loop on a URL that fails to scrape. -/
theorem collectUnlisted_cons_err (EANs : List String) (scr : String → ScrapeOut)
    (u : String) (rest : List String) (e : String) (hscr : scr u = .inr e) :
    collectUnlisted EANs scr (u :: rest)
      = ((collectUnlisted EANs scr rest).1, (collectUnlisted EANs scr rest).2 + 1) := by
  conv_lhs => unfold collectUnlisted
  rw [hscr]

/-- Unfolding the unlisted-scrape loop on a URL that scrapes to a product. -/
theorem collectUnlisted_cons_ok (EANs : List String) (scr : String → ScrapeOut)
    (u : String) (rest : List String) (p : Product) (hscr : scr u = .inl p) :
    collectUnlisted EANs scr (u :: rest)
      = if p.EAN ∉ EANs
        then (⟨p.EAN, p.product_name, p.quantity⟩ :: (collectUnlisted EANs scr rest).1,
              (collectUnlisted EANs scr rest).2)
        else collectUnlisted EANs scr rest := by
  conv_lhs => unfold collectUnlisted
  rw [hscr]

/-- Every row the unlisted-scrape loop emits has an EAN outside the
inventory EAN list. -/
theorem collectUnlisted_ean_not_in (EANs : List String) (scr : String → ScrapeOut)
    (urls : List String) (row : UnlistedRow)
    (h : row ∈ (collectUnlisted EANs scr urls).1) :
    row.EAN ∉ EANs := by
  induction urls with
  | nil => cases h
  | cons u rest ih =>
    cases hscr : scr u with
    | inr e =>
      rw [collectUnlisted_cons_err EANs scr u rest e hscr] at h
      exact ih h
    | inl p =>
      rw [collectUnlisted_cons_ok EANs scr u rest p hscr] at h
      by_cases hean : p.EAN ∉ EANs
      · rw [if_pos hean] at h
        rcases List.mem_cons.mp h with rfl | h'
        · exact hean
        · exact ih h'
      · rw [if_neg hean] at h
        exact ih h

/-- Rows reported by the sequential catalog loop all pass the EAN filter. -/
theorem runCatalogs_ean_filter (EANs URLs : List String) (test_env : Bool)
    (scr : String → ScrapeOut) (world : String → CatalogEnv)
    (cats : List Catalog) (res : AppendResult)
    (h : runCatalogs EANs URLs test_env scr world cats = some res)
    (out : String × List UnlistedRow) (hout : out ∈ res.outputs)
    (row : UnlistedRow) (hrow : row ∈ out.2) :
    row.EAN ∉ EANs := by
  induction cats generalizing res with
  | nil =>
    unfold runCatalogs at h
    injection h with h'
    subst h'
    cases hout
  | cons c rest ih =>
    unfold runCatalogs at h
    cases hpc : processCatalog EANs URLs test_env scr world c with
    | none => rw [hpc] at h; cases h
    | some trip =>
      obtain ⟨fname, rows, errs⟩ := trip
      rw [hpc] at h
      cases hrc : runCatalogs EANs URLs test_env scr world rest with
      | none => rw [hrc] at h; cases h
      | some res' =>
        rw [hrc] at h
        injection h with h'
        subst h'
        rcases List.mem_cons.mp hout with rfl | hout'
        · -- the head catalog's rows come from `collectUnlisted`
          unfold processCatalog at hpc
          cases hcu : collectProductUrls (world c.url) c.url with
          | none => simp [hcu] at hpc
          | some pr =>
            obtain ⟨product_urls, logged⟩ := pr
            rcases hcl : collectUnlisted EANs scr
                (filteredUrls URLs test_env product_urls) with ⟨rows', errs'⟩
            simp only [hcu, hcl, Option.some.injEq, Prod.mk.injEq] at hpc
            obtain ⟨h1, h2, h3⟩ := hpc
            subst h2
            apply collectUnlisted_ean_not_in EANs scr
              (filteredUrls URLs test_env product_urls) row
            rw [hcl]
            exact hrow
        · exact ih res' hrc hout'

/-- **C2.** The unlisted-products output never contains a row whose EAN is
already in the inventory: for every inventory, catalog set, scrape behaviour
and catalog-traversal behaviour, every row of every catalog's output table
has an EAN absent from the inventory's EAN column — the EAN check applies to
every successfully scraped product after the URL pre-filter, so a product
reached through a URL not in the inventory still cannot slip through. -/
theorem unlisted_never_in_inventory (products : List InvRow) (catalogs : List Catalog)
    (test_env : Bool) (scr : String → ScrapeOut) (world : String → CatalogEnv)
    (res : AppendResult)
    (h : check_unlisted_products products catalogs test_env scr world = some res)
    (out : String × List UnlistedRow) (hout : out ∈ res.outputs)
    (row : UnlistedRow) (hrow : row ∈ out.2) :
    row.EAN ∉ products.map (fun p => p.EAN) := by
  have h' : runCatalogs (products.map (fun p => p.EAN)) (products.map (fun p => p.url))
      test_env scr world (if test_env then catalogs.take 3 else catalogs) = some res := h
  exact runCatalogs_ean_filter (products.map (fun p => p.EAN))
    (products.map (fun p => p.url)) test_env scr world
    (if test_env then catalogs.take 3 else catalogs) res h' out hout row hrow

/-- Witness for **C2**: an inventory knowing EAN `a` under URL `u1`; the
catalog yields the unknown URLs `p1`, `p2`; scraping them produces EANs `a`
(already tracked, reached through a different URL) and `b`. Only `b` is
reported, and `b` is not in the inventory. -/
theorem unlisted_never_in_inventory_witness :
    (⟨"b", "Camera Y", 0⟩ : UnlistedRow).EAN
      ∉ ([⟨"a", "u1"⟩] : List InvRow).map (fun p => p.EAN) :=
  unlisted_never_in_inventory [⟨"a", "u1"⟩] [⟨"c1", "cat", none⟩] false
    (fun u => if u = "https://d/p2" then Sum.inl ⟨"b", "Camera Y", 0, 0, u⟩
              else Sum.inl ⟨"a", "Camera X", 0, 5, u⟩)
    (fun _ => envDup)
    ⟨[("Unnamed", [⟨"b", "Camera Y", 0⟩])], 0⟩ (by decide)
    ("Unnamed", [⟨"b", "Camera Y", 0⟩]) (by decide)
    ⟨"b", "Camera Y", 0⟩ (by decide)

/-- **C4.** The URL-collection operation, as invoked by
`check_unlisted_products` (`list(set(...))` around the traversal), returns a
deduplicated sequence: whenever the traversal completes or aborts with raw
URL list `raw`, the collected result exists, contains no URL twice, and
contains exactly the URLs of `raw` — even when multiple product cards
reference the same URL. -/
theorem collect_product_urls_dedup (env : CatalogEnv) (catalog_url : String)
    (raw : List String) (logged : Option String)
    (h : product_urls_by_catalogue env catalog_url = .ok raw logged) :
    collectProductUrls env catalog_url = some (raw.dedup, logged)
    ∧ raw.dedup.Nodup
    ∧ ∀ u, u ∈ raw.dedup ↔ u ∈ raw := by
  refine ⟨?_, List.nodup_dedup raw, fun u => List.mem_dedup⟩
  unfold collectProductUrls
  rw [h]

/-- Witness for **C4**: a one-page catalog whose cards repeat a URL; the
collected list is duplicate-free. -/
theorem collect_product_urls_dedup_witness :
    collectProductUrls envDup "c"
        = some ((["https://d/p1", "https://d/p2", "https://d/p1"] : List String).dedup, none)
    ∧ (["https://d/p1", "https://d/p2", "https://d/p1"] : List String).dedup.Nodup :=
  ⟨(collect_product_urls_dedup envDup "c" ["https://d/p1", "https://d/p2", "https://d/p1"]
      none (by decide)).1,
   (collect_product_urls_dedup envDup "c" ["https://d/p1", "https://d/p2", "https://d/p1"]
      none (by decide)).2.1⟩

/-- A completed catalog loop yields one output table per catalog. -/
theorem runCatalogs_length (EANs URLs : List String) (test_env : Bool)
    (scr : String → ScrapeOut) (world : String → CatalogEnv)
    (cats : List Catalog) (res : AppendResult)
    (h : runCatalogs EANs URLs test_env scr world cats = some res) :
    res.outputs.length = cats.length := by
  induction cats generalizing res with
  | nil =>
    unfold runCatalogs at h
    injection h with h'
    subst h'
    rfl
  | cons c rest ih =>
    unfold runCatalogs at h
    cases hpc : processCatalog EANs URLs test_env scr world c with
    | none => rw [hpc] at h; cases h
    | some trip =>
      obtain ⟨fname, rows, errs⟩ := trip
      rw [hpc] at h
      cases hrc : runCatalogs EANs URLs test_env scr world rest with
      | none => rw [hrc] at h; cases h
      | some res' =>
        rw [hrc] at h
        injection h with h'
        subst h'
        simpa using ih res' hrc

/-- **C5.** An assertion failure inside one catalog's traversal is contained:
(1) a completed non-test append run emits one output per catalog, whatever
each catalog's traversal and scrape outcomes are, so a failing catalog never
prevents the catalogs after it from being processed; (2) a traversal whose
pagination control is missing at the start aborts that catalog alone,
returning no URLs and the logged message; (3) a pagination control missing
mid-loop aborts with exactly the URLs collected so far; (4) such a
pagination-less catalog contributes an output table with zero unlisted rows
and zero errors. -/
theorem catalog_failure_isolated :
    (∀ (products : List InvRow) (catalogs : List Catalog) (scr : String → ScrapeOut)
        (world : String → CatalogEnv) (res : AppendResult),
        check_unlisted_products products catalogs false scr world = some res →
        res.outputs.length = catalogs.length)
    ∧ (∀ (env : CatalogEnv) (url : String),
        env.soupOk = true → env.resultTxt = true → env.pageSizeOk = true →
        env.pagination 0 = none →
        product_urls_by_catalogue env url = .ok [] (some "Pagination not found"))
    ∧ (∀ (env : CatalogEnv) (fuel k : Nat) (acc : List String),
        env.pagination (k + 1) = none →
        pagesLoop env (fuel + 1) k acc
          = (acc ++ env.hrefs k, .aborted "Pagination not found"))
    ∧ ∀ (EANs URLs : List String) (scr : String → ScrapeOut)
        (world : String → CatalogEnv) (c : Catalog),
        (world c.url).soupOk = true → (world c.url).resultTxt = true →
        (world c.url).pageSizeOk = true → (world c.url).pagination 0 = none →
        processCatalog EANs URLs false scr world c
          = some (c.filename.getD "Unnamed", [], 0) := by
  have pag : ∀ (env : CatalogEnv) (url : String),
      env.soupOk = true → env.resultTxt = true → env.pageSizeOk = true →
      env.pagination 0 = none →
      product_urls_by_catalogue env url = .ok [] (some "Pagination not found") := by
    intro env url h1 h2 h3 h4
    unfold product_urls_by_catalogue
    rw [h1, h2, h3, h4]
    rfl
  refine ⟨?_, pag, ?_, ?_⟩
  · intro products catalogs scr world res h
    exact runCatalogs_length _ _ _ _ _ _ _ h
  · intro env fuel k acc hpag
    unfold pagesLoop
    rw [hpag]
  · intro EANs URLs scr world c h1 h2 h3 h4
    unfold processCatalog collectProductUrls
    rw [pag (world c.url) c.url h1 h2 h3 h4]
    rfl

/-- Witness for **C5**: two catalogs, the first without a pagination control;
the run still emits two outputs, the first one empty. -/
theorem catalog_failure_isolated_witness :
    (⟨[("Unnamed", []), ("second", [])], 0⟩ : AppendResult).outputs.length = 2
    ∧ product_urls_by_catalogue envPagMissing "c1"
        = .ok [] (some "Pagination not found")
    ∧ pagesLoop envPagMissing 1 0 ["seen"]
        = (["seen"] ++ envPagMissing.hrefs 0, .aborted "Pagination not found")
    ∧ processCatalog [] [] false (fun u => Sum.inr u) (fun _ => envPagMissing)
        ⟨"c1", "cat", none⟩ = some ("Unnamed", [], 0) :=
  ⟨catalog_failure_isolated.1 [] [⟨"c1", "cat", none⟩, ⟨"c2", "cat2", some "second"⟩]
      (fun u => Sum.inr u)
      (fun u => if u = "c1" then envPagMissing else
        ⟨true, true, true, fun _ => some 2, fun _ => []⟩)
      ⟨[("Unnamed", []), ("second", [])], 0⟩ (by decide),
   catalog_failure_isolated.2.1 envPagMissing "c1" rfl rfl rfl rfl,
   catalog_failure_isolated.2.2.1 envPagMissing 0 0 ["seen"] rfl,
   catalog_failure_isolated.2.2.2 [] [] (fun u => Sum.inr u) (fun _ => envPagMissing)
     ⟨"c1", "cat", none⟩ rfl rfl rfl rfl⟩

/-- The unlisted-scrape loop's error counter counts exactly the URLs whose
scrape came back as an error. -/
theorem collectUnlisted_err_count (EANs : List String) (scr : String → ScrapeOut)
    (urls : List String) :
    (collectUnlisted EANs scr urls).2
      = urls.countP (fun u => ScrapeOut.isErr (scr u)) := by
  induction urls with
  | nil => rfl
  | cons u rest ih =>
    rw [List.countP_cons]
    cases hscr : scr u with
    | inr e =>
      rw [collectUnlisted_cons_err EANs scr u rest e hscr, ih]
      simp only [hscr]
      rfl
    | inl p =>
      rw [collectUnlisted_cons_ok EANs scr u rest p hscr]
      by_cases hean : p.EAN ∉ EANs
      · rw [if_pos hean]
        show (collectUnlisted EANs scr rest).2 = _
        rw [ih]
        rfl
      · rw [if_neg hean, ih]
        rfl

/-- A completed catalog loop's total error count is the sum, over the
catalogs, of the number of filtered URLs whose scrape failed. -/
theorem runCatalogs_err_count (EANs URLs : List String) (test_env : Bool)
    (scr : String → ScrapeOut) (world : String → CatalogEnv)
    (cats : List Catalog) (res : AppendResult)
    (h : runCatalogs EANs URLs test_env scr world cats = some res) :
    res.errCount
      = (cats.map (fun c =>
          (collectProductUrls (world c.url) c.url).elim 0 (fun pr =>
            (filteredUrls URLs test_env pr.1).countP
              (fun u => ScrapeOut.isErr (scr u))))).sum := by
  induction cats generalizing res with
  | nil =>
    unfold runCatalogs at h
    injection h with h'
    subst h'
    rfl
  | cons c rest ih =>
    unfold runCatalogs at h
    cases hpc : processCatalog EANs URLs test_env scr world c with
    | none => rw [hpc] at h; cases h
    | some trip =>
      obtain ⟨fname, rows, errs⟩ := trip
      rw [hpc] at h
      cases hrc : runCatalogs EANs URLs test_env scr world rest with
      | none => rw [hrc] at h; cases h
      | some res' =>
        rw [hrc] at h
        injection h with h'
        subst h'
        unfold processCatalog at hpc
        cases hcu : collectProductUrls (world c.url) c.url with
        | none => simp [hcu] at hpc
        | some pr =>
          obtain ⟨product_urls, logged⟩ := pr
          rcases hcl : collectUnlisted EANs scr
              (filteredUrls URLs test_env product_urls) with ⟨rows', errs'⟩
          simp only [hcu, hcl, Option.some.injEq, Prod.mk.injEq] at hpc
          obtain ⟨h1, h2, h3⟩ := hpc
          subst h3
          have herr : errs' = (filteredUrls URLs test_env product_urls).countP
              (fun u => ScrapeOut.isErr (scr u)) := by
            rw [← collectUnlisted_err_count EANs scr, hcl]
          show errs' + res'.errCount = _
          simp only [List.map_cons, List.sum_cons, hcu]
          rw [← ih res' hrc]
          simp [herr, Option.elim]

/-- **C6.** Non-fatal errors are accounted for, never silently dropped:
(1) in append mode, the error counter a completed run reports equals the
total number of filtered URLs whose scrape failed, summed over the processed
catalogs — each scrape failure is surfaced in the run's output; (2) in update
mode, every failing row becomes exactly one bad-product row. -/
theorem errors_surfaced :
    (∀ (products : List InvRow) (catalogs : List Catalog) (test_env : Bool)
        (scr : String → ScrapeOut) (world : String → CatalogEnv) (res : AppendResult),
        check_unlisted_products products catalogs test_env scr world = some res →
        res.errCount
          = ((if test_env then catalogs.take 3 else catalogs).map (fun c =>
              (collectProductUrls (world c.url) c.url).elim 0 (fun pr =>
                (filteredUrls (products.map (fun p => p.url)) test_env pr.1).countP
                  (fun u => ScrapeOut.isErr (scr u))))).sum)
    ∧ ∀ (scr : String → ScrapeOut) (products : List InvRow),
        (update_products scr false products).2.length
          = products.countP (fun r => ScrapeOut.isErr (scr r.url)) := by
  constructor
  · intro products catalogs test_env scr world res h
    have h' : runCatalogs (products.map (fun p => p.EAN)) (products.map (fun p => p.url))
        test_env scr world (if test_env then catalogs.take 3 else catalogs) = some res := h
    exact runCatalogs_err_count _ _ _ _ _ _ _ h'
  · intro scr products
    show ((products.map (update_product scr)).filter (fun o => o.isFailure)).length = _
    rw [← List.countP_eq_length_filter, List.countP_map]
    apply List.countP_congr
    intro r _
    unfold Function.comp update_product
    cases hscr : scr r.url <;> simp [UpdateOut.isFailure, ScrapeOut.isErr, hscr]

/-- Witness for **C6**: one catalog yielding two unknown URLs, one of which
fails to scrape; the reported error count is that one failure. -/
theorem errors_surfaced_witness :
    (⟨[("out", [⟨"b", "N", 5⟩])], 1⟩ : AppendResult).errCount
      = (([⟨"c1", "cat", some "out"⟩] : List Catalog).map (fun c =>
          (collectProductUrls envDup c.url).elim 0 (fun pr =>
            (filteredUrls (([⟨"a", "u1"⟩] : List InvRow).map (fun p => p.url)) false
                pr.1).countP
              (fun u => ScrapeOut.isErr
                (if u = "https://d/p1" then Sum.inr "boom"
                 else Sum.inl ⟨"b", "N", 0, 5, u⟩))))).sum :=
  errors_surfaced.1 [⟨"a", "u1"⟩] [⟨"c1", "cat", some "out"⟩] false
    (fun u => if u = "https://d/p1" then Sum.inr "boom" else Sum.inl ⟨"b", "N", 0, 5, u⟩)
    (fun _ => envDup) ⟨[("out", [⟨"b", "N", 5⟩])], 1⟩ (by decide)

/-- **C1 (counterexample).** The claim's retry behaviour does not hold: in an
environment where the first fetch of a URL returns the session-expired stub,
re-login succeeds, and a retried fetch would return a full product page, the
code's outcome differs from the specified retry outcome — the code keeps
extracting from the stale page (yielding a bad-product outcome) instead of
re-fetching. -/
theorem session_retry_counterexample :
    scrape_product envExpiry stAuthed "u" ≠ scrape_product_spec envExpiry stAuthed "u" := by
  decide

/-- **C1 (amended).** On a detected session-expired banner, `scrape_product`
invokes the login operation; if re-login fails the entire run is terminated;
but if re-login succeeds the same URL is **not** re-fetched — extraction
continues on the originally fetched page, so the outcome is independent of
whatever a retried fetch would have returned. -/
theorem session_expiry_no_retry (env : ScrapeEnv) (st : DriverSt) (url : String)
    (page : Page) (hfetch : env.fetch url = some page)
    (hbanner : bannerDetected page = true) :
    (∀ st' acts, handle_login st env.username env.password = .ok false st' acts →
        scrape_product env st url = (.fatal, st'))
    ∧ (∀ st' acts, handle_login st env.username env.password = .ok true st' acts →
        scrape_product env st url = (extractFields env url page, st'))
    ∧ ∀ g, scrape_product { env with refetch := g } st url
        = scrape_product env st url := by
  have hcore : ∀ r, handle_login st env.username env.password = r →
      scrape_product env st url
        = (match r with
           | .assertFailed msg => (.badProduct msg, st)
           | .ok false st' _ => (.fatal, st')
           | .ok true st' _ => (extractFields env url page, st')) := by
    intro r hr
    unfold scrape_product
    simp only [hfetch]
    rw [if_pos hbanner, hr]
  refine ⟨?_, ?_, ?_⟩
  · intro st' acts hl
    rw [hcore _ hl]
  · intro st' acts hl
    rw [hcore _ hl]
  · intro g
    rfl

/-- Witness for **C1 (amended)**: with the expired stub served and an
already-valid session, the outcome is the extraction of the stale page. -/
theorem session_expiry_no_retry_witness :
    scrape_product envExpiry stAuthed "u"
      = (extractFields envExpiry "u" pageExpired, stAuthed) :=
  (session_expiry_no_retry envExpiry stAuthed "u" pageExpired rfl (by decide)).2.1
    stAuthed [] (by decide)

/-- **C3 (counterexample).** The availability marker is not a validated
required field: a page carrying title, EAN and price but lacking the
`.is--available` marker is not rejected with a validation error — extraction
succeeds and produces a product record (with quantity `0`). -/
theorem availability_not_validated :
    pageNoStock.available = false
    ∧ scrape_product envNoStock stAuthed "u"
        = (.ok { EAN := "4006381333931", product_name := "Camera X",
                 price := (1234 : Rat), quantity := 0, url := "u" }, stAuthed) :=
  ⟨rfl, by decide⟩

/-- **C3 (amended).** Extraction independently validates three required
fields — title, EAN label and price — and a missing one aborts that page's
extraction with an error naming the field (a non-fatal bad-product outcome,
no record produced); the availability marker is not validated: with the
three fields present, extraction always succeeds, the marker's absence
merely selecting quantity `0` instead of `5`. -/
theorem extraction_field_validation (env : ScrapeEnv) (st : DriverSt) (url : String)
    (page : Page) (hfetch : env.fetch url = some page)
    (hbanner : bannerDetected page = false) :
    (page.title = none →
        scrape_product env st url = (.badProduct "Product name not found", st))
    ∧ (∀ t, page.title = some t → page.eanText = none →
        scrape_product env st url = (.badProduct "Product EAN not found", st))
    ∧ (∀ t e, page.title = some t → page.eanText = some e → page.priceText = none →
        scrape_product env st url = (.badProduct "Product price not found", st))
    ∧ ∀ t e pr, page.title = some t → page.eanText = some e → page.priceText = some pr →
        scrape_product env st url
          = (.ok { EAN := pyStrip (pyReplace e "EAN code:" ""),
                   product_name := pyStrip t,
                   price := env.price_float (pyStrip pr),
                   quantity := if page.available then 5 else 0, url := url }, st) := by
  have hnb : ¬ (bannerDetected page = true) := by
    rw [hbanner]
    exact Bool.false_ne_true
  have hcore : scrape_product env st url = (extractFields env url page, st) := by
    unfold scrape_product
    simp only [hfetch]
    rw [if_neg hnb]
  refine ⟨?_, ?_, ?_, ?_⟩
  · intro h1
    rw [hcore]
    unfold extractFields
    rw [h1]
  · intro t h1 h2
    rw [hcore]
    unfold extractFields
    rw [h1, h2]
  · intro t e h1 h2 h3
    rw [hcore]
    unfold extractFields
    rw [h1, h2, h3]
  · intro t e pr h1 h2 h3
    rw [hcore]
    unfold extractFields
    rw [h1, h2, h3]

/-- Witness for **C3 (amended)**: a page lacking its title element yields the
bad-product outcome naming the title field. -/
theorem extraction_field_validation_witness :
    scrape_product envNoTitle stAuthed "u"
      = (.badProduct "Product name not found", stAuthed) :=
  (extraction_field_validation envNoTitle stAuthed "u" pageNoTitle rfl rfl).1 rfl

end Difox

